import Mathlib

/-
Verification of the command-resolution and execution core of the rush shell.

The embedding covers src/commands.rs (Command, Runnable, Context, StatusCode,
CommandManager) and src/builtins.rs (the thirteen builtin commands).  The
collaborators that live outside those two files (environment.rs, path.rs,
shell.rs, the OS filesystem and the terminal) are modelled as explicit state
and as an oracle record `Fs` of uninterpreted functions; every operation the
two embedded files perform on them is threaded explicitly.

Conventions of the embedding:
- `&mut Context` state is passed as an explicit `Shell` value and returned in
  the result; printing to stdout/stderr is recorded as lists of emitted
  strings; calls to `Environment::update_process_env_vars` are counted.
- `std::process::exit(0)` is the non-returning result `BRes.exited 0`; an
  `expect`/`todo!` panic is `BRes.panicked`.
- Rust string ordering (`Vec<String>::sort`) is byte-lexicographic, which on
  UTF-8 agrees with codepoint-lexicographic order; it is embedded as
  `sortStrs`, an insertion sort over the codepoint order.  `Vec::sort` is a
  stable sort over a total order, so its output is the unique sorted
  permutation, which insertion sort also produces.
- ANSI colouring (the `colored` crate) is dropped from the printed text: it
  wraps every entry of a listing in the same escape prefix/suffix, so it
  affects neither the relative sort order of the directory lines (names never
  contain the path separator) nor anything a claim speaks about.
-/

namespace Rush

/-- Lexicographic comparison of character lists by codepoint, the order Rust
uses for `String` (byte order on UTF-8 equals codepoint order). -/
def listCharLe : List Char → List Char → Bool
  | [], _ => true
  | _ :: _, [] => false
  | a :: as, b :: bs =>
    if a.toNat < b.toNat then true
    else if b.toNat < a.toNat then false
    else listCharLe as bs

/-- Rust `String` ordering as a Boolean relation. -/
def strLe (a b : String) : Bool := listCharLe a.data b.data

theorem listCharLe_total (a b : List Char) :
    listCharLe a b = true ∨ listCharLe b a = true := by
  induction a generalizing b with
  | nil => left; rfl
  | cons x xs ih =>
    cases b with
    | nil => right; rfl
    | cons y ys =>
      simp only [listCharLe]
      rcases ih ys with h | h <;> split_ifs <;> simp_all

theorem listCharLe_trans (a b c : List Char)
    (hab : listCharLe a b = true) (hbc : listCharLe b c = true) :
    listCharLe a c = true := by
  induction a generalizing b c with
  | nil => rfl
  | cons x xs ih =>
    cases b with
    | nil => simp [listCharLe] at hab
    | cons y ys =>
      cases c with
      | nil => simp [listCharLe] at hbc
      | cons z zs =>
        simp only [listCharLe] at hab hbc ⊢
        split_ifs at hab hbc ⊢ <;> first | rfl | omega | (exact ih ys zs hab hbc)

/-- Embedding of `Vec<String>::sort()`: the unique `strLe`-sorted permutation,
realised as an insertion sort. -/
def sortStrs (l : List String) : List String :=
  List.insertionSort (fun a b => strLe a b = true) l

theorem sortStrs_sorted (l : List String) :
    List.Sorted (fun a b => strLe a b = true) (sortStrs l) := by
  letI : IsTotal String (fun a b => strLe a b = true) :=
    ⟨fun a b => listCharLe_total a.data b.data⟩
  letI : IsTrans String (fun a b => strLe a b = true) :=
    ⟨fun a b c => listCharLe_trans a.data b.data c.data⟩
  exact List.sorted_insertionSort _ l

theorem sortStrs_perm (l : List String) : (sortStrs l).Perm l :=
  List.perm_insertionSort _ l

/-- Rust `str::starts_with('.')`. -/
def startsDot (s : String) : Bool :=
  match s.data with
  | c :: _ => c == '.'
  | [] => false

/-- `usize::MAX` on the 64-bit platforms rush targets. -/
def usizeMax : Nat := 2 ^ 64 - 1

/-- Embedding of Rust `str::parse::<usize>()`: an optional leading plus sign,
then one or more ASCII digits, rejected when the value exceeds `usize::MAX`. -/
def parseUsize (s : String) : Option Nat :=
  let cs :=
    match s.data with
    | '+' :: rest => rest
    | cs => cs
  if cs = [] then none
  else if cs.all (fun c => c.isDigit) then
    let n := cs.foldl (fun acc c => acc * 10 + (c.toNat - 48)) 0
    if n ≤ usizeMax then some n else none
  else none

/-- Wraps a string in the single quotes the diagnostic messages of
builtins.rs use (written with hex escapes). -/
def quoted (s : String) : String := "\x27" ++ s ++ "\x27"

/-- Modelled from the spec: `crate::path::Path` (path.rs is not part of the
embedded sources).  It carries the absolute working-directory path and the
presentation-only truncation depth driven by `set_truncation` /
`disable_truncation`. -/
structure WDPath where
  absolute : String
  truncation : Option Nat

/-- Modelled from the spec: `Path::set_truncation(depth)`. -/
def WDPath.set_truncation (p : WDPath) (depth : Nat) : WDPath :=
  { p with truncation := some depth }

/-- Modelled from the spec: `Path::disable_truncation()`. -/
def WDPath.disable_truncation (p : WDPath) : WDPath :=
  { p with truncation := none }

/-- Modelled from the spec: the `Environment` collaborator (environment.rs is
not part of the embedded sources): working directory, previous working
directory, home directory. -/
structure Environment where
  working_directory : WDPath
  previous_working_directory : Option String
  home : String

/-- The shell state reachable through a `Context` (shell.rs exposes exactly
the environment to the embedded code). -/
structure Shell where
  environment : Environment

/-- One entry returned by `fs::read_dir`: its file name and whether its file
type is a directory. -/
structure DirEntry where
  name : String
  isDir : Bool

/-- Oracle for the external world: the OS filesystem calls and the
collaborator functions of path.rs that builtins.rs invokes.  Each field is an
uninterpreted function universally quantified in the theorems. -/
structure Fs where
  currentDir : Option String
  resolvePath : String → String → Option String
  readDir : String → Option (List DirEntry)
  createFile : String → Bool
  createDir : String → Bool
  removeFile : String → Bool
  openFile : String → Option (List String)
  validDir : String → Option String
  renderPath : WDPath → String

/-- StatusCode from commands.rs: an integer result code. -/
structure StatusCode where
  code : Int

/-- `StatusCode::new`. -/
def StatusCode.new (code : Int) : StatusCode := ⟨code⟩

/-- `StatusCode::success`. -/
def StatusCode.success : StatusCode := StatusCode.new 0

/-- `StatusCode::is_success`. -/
def StatusCode.is_success (s : StatusCode) : Bool := s.code == 0

/-- The externally visible side effects of one builtin invocation: lines
printed to stdout, lines printed to stderr, and the number of
`update_process_env_vars` calls. -/
structure Effects where
  out : List String
  err : List String
  envSyncs : Nat

/-- No output and no environment resync. -/
def Effects.silent : Effects := ⟨[], [], 0⟩

/-- Only stdout output. -/
def Effects.prints (l : List String) : Effects := ⟨l, [], 0⟩

/-- Only stderr output. -/
def Effects.errs (l : List String) : Effects := ⟨[], l, 0⟩

/-- Result of running a builtin: a returned status code together with the
shell state left behind and the effects, or process termination
(`std::process::exit`), or a panic (`expect` / `todo!`). -/
inductive BRes where
  | ret (status : StatusCode) (shell : Shell) (eff : Effects)
  | exited (code : Int) (eff : Effects)
  | panicked (eff : Effects)

/-- The shell state a returning invocation leaves behind. -/
def BRes.shellOf : BRes → Option Shell
  | .ret _ s _ => some s
  | _ => none

/-- Replaces the shell-state component of a returning result. -/
def BRes.withShell : BRes → Shell → BRes
  | .ret c _ e, s => .ret c s e
  | r, _ => r

/-- Modelled from the spec: `Environment::set_path(candidate)` (environment.rs
is not part of the embedded sources).  It validates the candidate through the
filesystem oracle and, on success, atomically updates the working directory
to the validated absolute path while recording the prior working directory;
on failure the environment is unchanged. -/
def Environment.set_path (env : Environment) (fs : Fs) (candidate : String) :
    Option Environment :=
  match fs.validDir candidate with
  | some abs =>
    some { env with
      working_directory := { env.working_directory with absolute := abs },
      previous_working_directory := some env.working_directory.absolute }
  | none => none

/-- `builtins::test`. -/
def test (fs : Fs) (shell : Shell) (args : List String) : BRes :=
  match args with
  | [] => .ret StatusCode.success shell (Effects.prints ["Test command!"])
  | _ => .ret (StatusCode.new 1) shell (Effects.errs ["Usage: test"])

/-- `builtins::exit`: terminates the process with status 0 (a non-returning
action) when called without arguments. -/
def exit (fs : Fs) (shell : Shell) (args : List String) : BRes :=
  match args with
  | [] => .exited 0 Effects.silent
  | _ => .ret (StatusCode.new 1) shell (Effects.errs ["Usage: exit"])

/-- `builtins::working_directory`: prints the rendered working directory. -/
def working_directory (fs : Fs) (shell : Shell) (args : List String) : BRes :=
  match args with
  | [] =>
    .ret StatusCode.success shell
      (Effects.prints [fs.renderPath shell.environment.working_directory])
  | _ => .ret (StatusCode.new 1) shell (Effects.errs ["Usage: working-directory"])

/-- `builtins::change_directory`. -/
def change_directory (fs : Fs) (shell : Shell) (args : List String) : BRes :=
  match args with
  | [arg] =>
    match shell.environment.set_path fs arg with
    | some env2 => .ret StatusCode.success ⟨env2⟩ ⟨[], [], 1⟩
    | none =>
      .ret (StatusCode.new 2) shell (Effects.errs ["Invalid path: " ++ quoted arg])
  | _ => .ret (StatusCode.new 1) shell (Effects.errs ["Usage: change-directory <path>"])

/-- The partition loop of `builtins::list_directory`: walks the entries in
order, skips names starting with a dot, appends the separator to directory
names, and collects directories and files separately. -/
def splitEntries : List DirEntry → List String × List String
  | [] => ([], [])
  | e :: rest =>
    let p := splitEntries rest
    if startsDot e.name then p
    else if e.isDir then ((e.name ++ "/") :: p.1, p.2)
    else (p.1, e.name :: p.2)

/-- The lines `list_directory` prints for a given entry list: both groups
sorted, directories first. -/
def renderEntries (entries : List DirEntry) : List String :=
  sortStrs (splitEntries entries).1 ++ sortStrs (splitEntries entries).2

/-- `builtins::list_directory`. -/
def list_directory (fs : Fs) (shell : Shell) (args : List String) : BRes :=
  match args with
  | [] =>
    match fs.currentDir with
    | none => .panicked Effects.silent
    | some cwd =>
      match fs.readDir cwd with
      | none => .panicked Effects.silent
      | some entries => .ret StatusCode.success shell (Effects.prints (renderEntries entries))
  | [arg] =>
    match fs.resolvePath arg shell.environment.home with
    | none =>
      .ret (StatusCode.new 2) shell (Effects.errs ["Invalid path: " ++ quoted arg])
    | some abs =>
      match fs.readDir abs with
      | none =>
        .ret (StatusCode.new 3) shell
          (Effects.errs ["Failed to read directory: " ++ quoted abs])
      | some entries => .ret StatusCode.success shell (Effects.prints (renderEntries entries))
  | _ => .ret (StatusCode.new 1) shell (Effects.errs ["Usage: list-directory <path>"])

/-- `builtins::go_back`. -/
def go_back (fs : Fs) (shell : Shell) (args : List String) : BRes :=
  match args with
  | [] =>
    match shell.environment.previous_working_directory with
    | none =>
      .ret (StatusCode.new 2) shell
        (Effects.errs ["No previous working directory available"])
    | some prev =>
      match shell.environment.set_path fs prev with
      | some env2 => .ret StatusCode.success ⟨env2⟩ ⟨[], [], 1⟩
      | none =>
        .ret (StatusCode.new 3) shell (Effects.errs ["Invalid path: " ++ quoted prev])
  | _ => .ret (StatusCode.new 1) shell (Effects.errs ["Usage: go-back"])

/-- `builtins::clear_terminal`: emits the terminal-clear control sequence. -/
def clear_terminal (fs : Fs) (shell : Shell) (args : List String) : BRes :=
  match args with
  | [] => .ret StatusCode.success shell (Effects.prints ["\x1B[2J\x1B[1;1H"])
  | _ => .ret (StatusCode.new 1) shell (Effects.errs ["Usage: clear-terminal"])

/-- `builtins::create_file`: passes its argument to `fs::File::create`
verbatim. -/
def create_file (fs : Fs) (shell : Shell) (args : List String) : BRes :=
  match args with
  | [arg] =>
    if fs.createFile arg then .ret StatusCode.success shell Effects.silent
    else
      .ret (StatusCode.new 2) shell
        (Effects.errs ["Failed to create file: " ++ quoted arg])
  | _ => .ret (StatusCode.new 1) shell (Effects.errs ["Usage: create-file <path>"])

/-- `builtins::create_directory`: passes its argument to `fs::create_dir`
verbatim. -/
def create_directory (fs : Fs) (shell : Shell) (args : List String) : BRes :=
  match args with
  | [arg] =>
    if fs.createDir arg then .ret StatusCode.success shell Effects.silent
    else
      .ret (StatusCode.new 2) shell
        (Effects.errs ["Failed to create directory: " ++ quoted arg])
  | _ => .ret (StatusCode.new 1) shell (Effects.errs ["Usage: create-directory <path>"])

/-- `builtins::delete_file`: passes its argument to `fs::remove_file`
verbatim. -/
def delete_file (fs : Fs) (shell : Shell) (args : List String) : BRes :=
  match args with
  | [arg] =>
    if fs.removeFile arg then .ret StatusCode.success shell Effects.silent
    else
      .ret (StatusCode.new 2) shell
        (Effects.errs ["Failed to delete file: " ++ quoted arg])
  | _ => .ret (StatusCode.new 1) shell (Effects.errs ["Usage: delete-file <path>"])

/-- `builtins::read_file`: opens the file at the verbatim argument and prints
its lines in order. -/
def read_file (fs : Fs) (shell : Shell) (args : List String) : BRes :=
  match args with
  | [arg] =>
    match fs.openFile arg with
    | some lines => .ret StatusCode.success shell (Effects.prints lines)
    | none =>
      .ret (StatusCode.new 2) shell
        (Effects.errs ["Failed to open file: " ++ quoted arg])
  | _ => .ret (StatusCode.new 1) shell (Effects.errs ["Usage: read-file <path>"])

/-- Applies `set_truncation` to the working-directory display of a shell. -/
def Shell.set_truncation (shell : Shell) (depth : Nat) : Shell :=
  { shell with environment :=
      { shell.environment with working_directory :=
          shell.environment.working_directory.set_truncation depth } }

/-- Applies `disable_truncation` to the working-directory display of a
shell. -/
def Shell.disable_truncation (shell : Shell) : Shell :=
  { shell with environment :=
      { shell.environment with working_directory :=
          shell.environment.working_directory.disable_truncation } }

/-- `builtins::truncate`. -/
def truncate (fs : Fs) (shell : Shell) (args : List String) : BRes :=
  match args with
  | [] => .ret StatusCode.success (shell.set_truncation 1) Effects.silent
  | [arg] =>
    match parseUsize arg with
    | some t => .ret StatusCode.success (shell.set_truncation t) Effects.silent
    | none =>
      .ret (StatusCode.new 2) shell
        (Effects.errs ["Invalid truncation length: " ++ quoted arg])
  | _ =>
    .ret (StatusCode.new 1) shell (Effects.errs ["Usage: truncate <length (default 1)>"])

/-- `builtins::untruncate`. -/
def untruncate (fs : Fs) (shell : Shell) (args : List String) : BRes :=
  match args with
  | [] => .ret StatusCode.success shell.disable_truncation Effects.silent
  | _ => .ret (StatusCode.new 1) shell (Effects.errs ["Usage: untruncate"])

/-- `commands::Runnable`: an internal trusted function or the path of an
external binary. -/
inductive Runnable where
  | Internal (f : Fs → Shell → List String → BRes)
  | External (path : String)

/-- `Runnable::internal`. -/
def Runnable.internal (f : Fs → Shell → List String → BRes) : Runnable :=
  Runnable.Internal f

/-- `Runnable::external`. -/
def Runnable.external (path : String) : Runnable := Runnable.External path

/-- `Runnable::run`: an internal runnable is called directly with the context
and arguments; the external branch is `todo!()`, i.e. a panic. -/
def Runnable.run (r : Runnable) (fs : Fs) (shell : Shell) (args : List String) : BRes :=
  match r with
  | .Internal f => f fs shell args
  | .External _ => .panicked Effects.silent

/-- `commands::Command`: a true name, a list of aliases, a runnable. -/
structure Command where
  true_name : String
  aliases : List String
  runnable : Runnable

/-- `Command::new`. -/
def Command.new (true_name : String) (aliases : List String) (runnable : Runnable) :
    Command :=
  ⟨true_name, aliases, runnable⟩

/-- `commands::CommandManager`: an ordered collection of commands. -/
structure CommandManager where
  commands : List Command

/-- `CommandManager::new`. -/
def CommandManager.new : CommandManager := ⟨[]⟩

/-- `CommandManager::add_command`: appends a command, with no collision
checks. -/
def CommandManager.add_command (m : CommandManager) (true_name : String)
    (aliases : List String) (runnable : Runnable) : CommandManager :=
  ⟨m.commands ++ [Command.new true_name aliases runnable]⟩

/-- The loop body of `CommandManager::resolve`: one pass over the commands in
registration order, checking each command first by true name, then by its
aliases, returning the first hit. -/
def resolveIn : List Command → String → Option Command
  | [], _ => none
  | c :: rest, name =>
    if c.true_name = name then some c
    else if c.aliases.contains name then some c
    else resolveIn rest name

/-- `CommandManager::resolve`. -/
def CommandManager.resolve (m : CommandManager) (name : String) : Option Command :=
  resolveIn m.commands name

/-- `CommandManager::dispatch`: resolves the name and runs the matched
runnable, or returns nothing when the name does not resolve. -/
def CommandManager.dispatch (m : CommandManager) (name : String)
    (args : List String) (fs : Fs) (shell : Shell) : Option BRes :=
  match m.resolve name with
  | some c => some (c.runnable.run fs shell args)
  | none => none

/-- `CommandManager::default`: the default registry built in registration
order. -/
def CommandManager.default : CommandManager :=
  CommandManager.new
    |>.add_command "test" ["t"] (Runnable.internal test)
    |>.add_command "exit" ["quit", "q"] (Runnable.internal exit)
    |>.add_command "working-directory" ["pwd", "wd"] (Runnable.internal working_directory)
    |>.add_command "change-directory" ["cd"] (Runnable.internal change_directory)
    |>.add_command "list-directory" ["directory", "list", "ls", "dir"]
      (Runnable.internal list_directory)
    |>.add_command "go-back" ["back", "b", "prev", "pd"] (Runnable.internal go_back)
    |>.add_command "clear-terminal" ["clear", "cls"] (Runnable.internal clear_terminal)
    |>.add_command "create-file" ["create", "touch", "new", "cf"]
      (Runnable.internal create_file)
    |>.add_command "create-directory" ["mkdir", "md"] (Runnable.internal create_directory)
    |>.add_command "delete-file" ["delete", "remove", "rm", "del", "df"]
      (Runnable.internal delete_file)
    |>.add_command "read-file" ["read", "cat", "rf"] (Runnable.internal read_file)
    |>.add_command "truncate" ["trunc"] (Runnable.internal truncate)
    |>.add_command "untruncate" ["untrunc"] (Runnable.internal untruncate)

/-- The resolution rule exactly as the specification phrases it (to be
compared with the implemented `CommandManager.resolve`): first the first
command whose true name equals the query over the whole registry, and only
failing that, the first command whose alias set contains the query. -/
def resolveTwoPass (m : CommandManager) (name : String) : Option Command :=
  match m.commands.find? (fun c => c.true_name == name) with
  | some c => some c
  | none => m.commands.find? (fun c => c.aliases.contains name)

/-- The non-hidden directory entries of a listing, rendered with the trailing
separator, in traversal order. -/
def dirLines (es : List DirEntry) : List String :=
  (es.filter (fun e => !startsDot e.name && e.isDir)).map (fun e => e.name ++ "/")

/-- The non-hidden file entries of a listing, in traversal order. -/
def fileLines (es : List DirEntry) : List String :=
  (es.filter (fun e => !startsDot e.name && !e.isDir)).map (fun e => e.name)

theorem splitEntries_eq (es : List DirEntry) :
    splitEntries es = (dirLines es, fileLines es) := by
  induction es with
  | nil => rfl
  | cons e rest ih =>
    simp only [splitEntries, dirLines, fileLines, List.filter_cons, List.map] at *
    cases hd : startsDot e.name <;> cases hb : e.isDir <;>
      simp_all [dirLines, fileLines]

theorem resolveIn_append_of_some (cs more : List Command) (name : String)
    (c : Command) (h : resolveIn cs name = some c) :
    resolveIn (cs ++ more) name = some c := by
  induction cs with
  | nil => simp [resolveIn] at h
  | cons d rest ih =>
    simp only [resolveIn, List.cons_append] at h ⊢
    split_ifs at h ⊢ <;> first | exact h | exact ih h

theorem resolveIn_eq_none_of_no_match (cs : List Command) (name : String)
    (h : ∀ c ∈ cs, ¬ c.true_name = name ∧ c.aliases.contains name = false) :
    resolveIn cs name = none := by
  induction cs with
  | nil => rfl
  | cons d rest ih =>
    obtain ⟨h1, h2⟩ := h d (List.mem_cons_self d rest)
    simp only [resolveIn, h1, h2, if_false, Bool.false_eq_true]
    exact ih fun c hc => h c (List.mem_cons_of_mem d hc)

theorem resolveIn_eq_find (cs : List Command) (name : String) :
    resolveIn cs name =
      cs.find? (fun c => c.true_name == name || c.aliases.contains name) := by
  induction cs with
  | nil => rfl
  | cons c rest ih =>
    simp only [resolveIn, List.find?]
    by_cases h1 : c.true_name = name
    · simp [h1]
    · by_cases h2 : name ∈ c.aliases
      · simp [h1, h2]
      · have hb : (c.true_name == name) = false := by simp [h1]
        simp [h1, h2, ih, hb]

/-- A concrete filesystem oracle on which every external operation fails. -/
def fs0 : Fs where
  currentDir := none
  resolvePath := fun _ _ => none
  readDir := fun _ => none
  createFile := fun _ => false
  createDir := fun _ => false
  removeFile := fun _ => false
  openFile := fun _ => none
  validDir := fun _ => none
  renderPath := fun p => p.absolute

/-- A concrete filesystem oracle that accepts every directory change
verbatim. -/
def fsOk : Fs := { fs0 with validDir := fun s => some s }

/-- A concrete shell state: working directory `/`, no previous directory. -/
def shell0 : Shell := ⟨⟨⟨"/", none⟩, none, "/home/u"⟩⟩

/-- A concrete shell state that has a recorded previous working directory. -/
def shell1 : Shell := ⟨⟨⟨"/tmp", none⟩, some "/", "/home/u"⟩⟩

/-- A registry in which an alias of the first command collides with the true
name of the second. -/
def mgrShadow : CommandManager :=
  (CommandManager.new.add_command "alpha" ["x"] (Runnable.external "bin1"))
    |>.add_command "x" [] (Runnable.external "bin2")

/-- C1 counterexample: in a registry whose first command `alpha` carries the
alias `x` and whose second command has true name `x`, `resolve "x"` returns
the earlier command `alpha` through its alias, while the claimed rule (true
names over the whole registry first, then aliases) would return the command
named `x` — a true-name match does not take precedence over an alias match
on an earlier-registered command. -/
theorem resolve_two_pass_counterexample :
    (mgrShadow.resolve "x").map Command.true_name = some "alpha" ∧
    (resolveTwoPass mgrShadow "x").map Command.true_name = some "x" :=
  ⟨rfl, rfl⟩

/-- C1 (amended): `resolve(name)` performs a single pass in registration
order and returns the first command whose true name equals `name` or whose
alias set contains `name`, else none; within one command the true name is
checked before the aliases, and matching is exact-string and
case-sensitive (string equality). -/
theorem resolve_first_match (m : CommandManager) (name : String) :
    m.resolve name =
      m.commands.find? (fun c => c.true_name == name || c.aliases.contains name) :=
  resolveIn_eq_find m.commands name

/-- C2: `dispatch(name, args, context)` returns no result exactly when
`resolve(name)` finds no command; otherwise it returns the result of running
the resolved command's runnable with that context and those arguments; and
any string matching no registered true name or alias resolves to none. -/
theorem dispatch_resolve_spec (m : CommandManager) (name : String)
    (args : List String) (fs : Fs) (shell : Shell) :
    (m.dispatch name args fs shell = none ↔ m.resolve name = none) ∧
    (∀ c, m.resolve name = some c →
      m.dispatch name args fs shell = some (c.runnable.run fs shell args)) ∧
    ((∀ c ∈ m.commands, ¬ c.true_name = name ∧ c.aliases.contains name = false) →
      m.resolve name = none) := by
  refine ⟨?_, ?_, fun h => resolveIn_eq_none_of_no_match m.commands name h⟩
  · cases h : m.resolve name <;> simp [CommandManager.dispatch, h]
  · intro c hc
    simp [CommandManager.dispatch, hc]

/-- Witness for C2: `zzz` is not registered in the default registry, so
dispatching it yields no result; dispatching the alias `t` runs the `test`
builtin. -/
theorem dispatch_resolve_spec_witness :
    CommandManager.default.dispatch "zzz" [] fs0 shell0 = none ∧
    CommandManager.default.dispatch "t" [] fs0 shell0 = some (test fs0 shell0 []) := by
  have h := dispatch_resolve_spec CommandManager.default "zzz" [] fs0 shell0
  have h2 := dispatch_resolve_spec CommandManager.default "t" [] fs0 shell0
  refine ⟨h.1.mpr (h.2.2 (by decide)), ?_⟩
  exact h2.2.1 (Command.new "test" ["t"] (Runnable.internal test)) rfl

/-- C7: `add_command` appends the new command at the end with no collision
detection, and for any name that already resolves to some command,
registering a further command whose true name or alias set collides with
that name leaves resolution of that name unchanged: the earlier entry still
wins and shadows the later registration. -/
theorem register_shadowed (m : CommandManager) (name : String) (c : Command)
    (tn : String) (al : List String) (r : Runnable)
    (hres : m.resolve name = some c)
    (hcol : tn = name ∨ al.contains name = true) :
    (m.add_command tn al r).commands = m.commands ++ [Command.new tn al r] ∧
    (m.add_command tn al r).resolve name = some c :=
  ⟨rfl, resolveIn_append_of_some m.commands [Command.new tn al r] name c hres⟩

/-- Witness for C7: registering a command `cd2` whose alias `cd` collides
with the alias of the already-registered `change-directory` leaves `cd`
resolving to `change-directory`. -/
theorem register_shadowed_witness :
    (CommandManager.default.add_command "cd2" ["cd"] (Runnable.external "xbin")).resolve "cd" =
      some (Command.new "change-directory" ["cd"] (Runnable.internal change_directory)) :=
  (register_shadowed CommandManager.default "cd"
    (Command.new "change-directory" ["cd"] (Runnable.internal change_directory))
    "cd2" ["cd"] (Runnable.external "xbin") rfl (Or.inr rfl)).2

/-- C3: every builtin called with an argument count outside its accepted
arity (`test`, `exit`, `working-directory`, `go-back`, `clear-terminal`,
`untruncate`: 0; `change-directory`, `create-file`, `create-directory`,
`delete-file`, `read-file`: 1; `list-directory`, `truncate`: 0 or 1) returns
status code 1, leaves the shell state unchanged, and prints exactly its
usage diagnostic on the error stream, for every context, filesystem, and
such argument list. -/
theorem builtins_usage_arity (fs : Fs) (shell : Shell) (args : List String) :
    (args ≠ [] →
      test fs shell args = .ret (StatusCode.new 1) shell (Effects.errs ["Usage: test"]) ∧
      exit fs shell args = .ret (StatusCode.new 1) shell (Effects.errs ["Usage: exit"]) ∧
      working_directory fs shell args =
        .ret (StatusCode.new 1) shell (Effects.errs ["Usage: working-directory"]) ∧
      go_back fs shell args = .ret (StatusCode.new 1) shell (Effects.errs ["Usage: go-back"]) ∧
      clear_terminal fs shell args =
        .ret (StatusCode.new 1) shell (Effects.errs ["Usage: clear-terminal"]) ∧
      untruncate fs shell args =
        .ret (StatusCode.new 1) shell (Effects.errs ["Usage: untruncate"])) ∧
    (args.length ≠ 1 →
      change_directory fs shell args =
        .ret (StatusCode.new 1) shell (Effects.errs ["Usage: change-directory <path>"]) ∧
      create_file fs shell args =
        .ret (StatusCode.new 1) shell (Effects.errs ["Usage: create-file <path>"]) ∧
      create_directory fs shell args =
        .ret (StatusCode.new 1) shell (Effects.errs ["Usage: create-directory <path>"]) ∧
      delete_file fs shell args =
        .ret (StatusCode.new 1) shell (Effects.errs ["Usage: delete-file <path>"]) ∧
      read_file fs shell args =
        .ret (StatusCode.new 1) shell (Effects.errs ["Usage: read-file <path>"])) ∧
    (2 ≤ args.length →
      list_directory fs shell args =
        .ret (StatusCode.new 1) shell (Effects.errs ["Usage: list-directory <path>"]) ∧
      truncate fs shell args =
        .ret (StatusCode.new 1) shell (Effects.errs ["Usage: truncate <length (default 1)>"])) := by
  refine ⟨?_, ?_, ?_⟩
  · intro h
    cases args with
    | nil => exact absurd rfl h
    | cons a as => exact ⟨rfl, rfl, rfl, rfl, rfl, rfl⟩
  · intro h
    cases args with
    | nil => exact ⟨rfl, rfl, rfl, rfl, rfl⟩
    | cons a as =>
      cases as with
      | nil => exact absurd rfl h
      | cons b bs => exact ⟨rfl, rfl, rfl, rfl, rfl⟩
  · intro h
    cases args with
    | nil => simp at h
    | cons a as =>
      cases as with
      | nil => simp at h
      | cons b bs => exact ⟨rfl, rfl⟩

/-- Witness for C3 at the two-argument list. -/
theorem builtins_usage_arity_witness :
    test fs0 shell0 ["x", "y"] = .ret (StatusCode.new 1) shell0 (Effects.errs ["Usage: test"]) ∧
    change_directory fs0 shell0 ["x", "y"] =
      .ret (StatusCode.new 1) shell0 (Effects.errs ["Usage: change-directory <path>"]) ∧
    truncate fs0 shell0 ["x", "y"] =
      .ret (StatusCode.new 1) shell0 (Effects.errs ["Usage: truncate <length (default 1)>"]) := by
  have h := builtins_usage_arity fs0 shell0 ["x", "y"]
  exact ⟨(h.1 (by decide)).1, (h.2.1 (by decide)).1, (h.2.2 (by decide)).2⟩

/-- C4: `truncate` with no argument sets the truncation depth to 1 and
succeeds; with one argument accepted by `usize` parsing (an optional plus
sign, ASCII digits, value at most `usize::MAX`) it sets the depth to the
parsed value and succeeds; with one argument that does not parse it fails
with status code 2 and an unchanged shell; with two or more arguments it
fails with status code 1. -/
theorem truncate_spec (fs : Fs) (shell : Shell) (s : String) (n : Nat)
    (args : List String) :
    truncate fs shell [] = .ret StatusCode.success (shell.set_truncation 1) Effects.silent ∧
    (parseUsize s = some n →
      truncate fs shell [s] =
        .ret StatusCode.success (shell.set_truncation n) Effects.silent) ∧
    (parseUsize s = none →
      truncate fs shell [s] =
        .ret (StatusCode.new 2) shell
          (Effects.errs ["Invalid truncation length: " ++ quoted s])) ∧
    (2 ≤ args.length →
      truncate fs shell args =
        .ret (StatusCode.new 1) shell
          (Effects.errs ["Usage: truncate <length (default 1)>"])) := by
  refine ⟨rfl, ?_, ?_, ?_⟩
  · intro h
    simp [truncate, h]
  · intro h
    simp [truncate, h]
  · intro h
    cases args with
    | nil => simp at h
    | cons a as =>
      cases as with
      | nil => simp at h
      | cons b bs => rfl

/-- Witness for C4 at the inputs named by the specification: `5` parses and
sets the depth to 5, `-5` and `abc` fail with code 2, a two-argument call
fails with code 1. -/
theorem truncate_spec_witness :
    truncate fs0 shell0 ["5"] =
      .ret StatusCode.success (shell0.set_truncation 5) Effects.silent ∧
    truncate fs0 shell0 ["-5"] =
      .ret (StatusCode.new 2) shell0
        (Effects.errs ["Invalid truncation length: " ++ quoted "-5"]) ∧
    truncate fs0 shell0 ["abc"] =
      .ret (StatusCode.new 2) shell0
        (Effects.errs ["Invalid truncation length: " ++ quoted "abc"]) ∧
    truncate fs0 shell0 ["1", "2"] =
      .ret (StatusCode.new 1) shell0
        (Effects.errs ["Usage: truncate <length (default 1)>"]) := by
  have h5 := truncate_spec fs0 shell0 "5" 5 ["1", "2"]
  have hm := truncate_spec fs0 shell0 "-5" 0 ["1", "2"]
  have ha := truncate_spec fs0 shell0 "abc" 0 ["1", "2"]
  exact ⟨h5.2.1 (by decide), hm.2.2.1 (by decide), ha.2.2.1 (by decide),
    h5.2.2.2 (by decide)⟩

/-- A concrete filesystem oracle whose target directory holds two
subdirectories named `a` and `a!`. -/
def fsC : Fs := { fs0 with
  resolvePath := fun _ _ => some "/d",
  readDir := fun _ => some [⟨"a", true⟩, ⟨"a!", true⟩] }

/-- A concrete filesystem oracle whose target directory holds the entries of
the specification example: `.hidden`, `b.txt`, `a.txt`, and a subdirectory
`sub`. -/
def fsD : Fs := { fs0 with
  resolvePath := fun _ _ => some "/d",
  readDir := fun _ =>
    some [⟨".hidden", false⟩, ⟨"b.txt", false⟩, ⟨"a.txt", false⟩, ⟨"sub", true⟩] }

/-- C5 counterexample: on a directory with subdirectories `a` and `a!` the
code prints `a!/` before `a/`, because it sorts the displayed strings with
the separator already appended, while the lexicographic order of the entry
names is `a`, `a!`, which would render as `a/` then `a!/` — so the group of
directories is not printed in lexicographic order of entry name. -/
theorem list_directory_name_order_counterexample :
    list_directory fsC shell0 ["d"] =
      .ret StatusCode.success shell0 (Effects.prints ["a!/", "a/"]) ∧
    (sortStrs ["a", "a!"]).map (fun s => s ++ "/") = ["a/", "a!/"] ∧
    (["a!/", "a/"] : List String) ≠ ["a/", "a!/"] :=
  ⟨rfl, by decide, by decide⟩

/-- C5 (amended): for a path that does not resolve `list-directory` returns
code 2; for a resolved but unreadable directory it returns code 3; for a
readable directory it returns code 0 and prints all non-hidden directories
first, each suffixed with the path separator and sorted lexicographically by
that displayed string (name plus separator, rather than by bare entry name),
then all non-hidden files sorted lexicographically by name; entries whose
name starts with a dot are omitted; both printed groups are sorted
permutations of the respective entry groups. -/
theorem list_directory_spec (fs : Fs) (shell : Shell) (arg p : String)
    (es : List DirEntry) :
    (fs.resolvePath arg shell.environment.home = none →
      list_directory fs shell [arg] =
        .ret (StatusCode.new 2) shell (Effects.errs ["Invalid path: " ++ quoted arg])) ∧
    (fs.resolvePath arg shell.environment.home = some p →
      (fs.readDir p = none →
        list_directory fs shell [arg] =
          .ret (StatusCode.new 3) shell
            (Effects.errs ["Failed to read directory: " ++ quoted p])) ∧
      (fs.readDir p = some es →
        list_directory fs shell [arg] =
          .ret StatusCode.success shell
            (Effects.prints (sortStrs (dirLines es) ++ sortStrs (fileLines es))) ∧
        List.Sorted (fun a b => strLe a b = true) (sortStrs (dirLines es)) ∧
        List.Sorted (fun a b => strLe a b = true) (sortStrs (fileLines es)) ∧
        (sortStrs (dirLines es)).Perm (dirLines es) ∧
        (sortStrs (fileLines es)).Perm (fileLines es))) := by
  refine ⟨fun h => by simp [list_directory, h],
    fun h => ⟨fun h2 => by simp [list_directory, h, h2], fun h2 => ⟨?_,
      sortStrs_sorted _, sortStrs_sorted _, sortStrs_perm _, sortStrs_perm _⟩⟩⟩
  simp [list_directory, h, h2, renderEntries, splitEntries_eq]

/-- Witness for C5 on the directory from the specification example: entries
`.hidden`, `b.txt`, `a.txt`, `sub/` print as `sub/`, `a.txt`, `b.txt`. -/
theorem list_directory_spec_witness :
    list_directory fsD shell0 ["d"] =
      .ret StatusCode.success shell0 (Effects.prints ["sub/", "a.txt", "b.txt"]) := by
  have h := ((list_directory_spec fsD shell0 "d" "/d"
    [⟨".hidden", false⟩, ⟨"b.txt", false⟩, ⟨"a.txt", false⟩, ⟨"sub", true⟩]).2
      rfl).2 rfl
  exact h.1

/-- C8: `go-back` with no arguments returns code 2 when no previous working
directory is recorded; returns code 3 with the shell unchanged when a
previous directory is recorded but setting the path to it fails; and
otherwise sets the working directory to the (validated) recorded previous
directory, records the prior one, performs exactly one environment-variable
resynchronization, and succeeds. -/
theorem go_back_spec (fs : Fs) (shell : Shell) :
    (shell.environment.previous_working_directory = none →
      go_back fs shell [] =
        .ret (StatusCode.new 2) shell
          (Effects.errs ["No previous working directory available"])) ∧
    (∀ prev, shell.environment.previous_working_directory = some prev →
      (fs.validDir prev = none →
        go_back fs shell [] =
          .ret (StatusCode.new 3) shell
            (Effects.errs ["Invalid path: " ++ quoted prev])) ∧
      (∀ ab, fs.validDir prev = some ab →
        go_back fs shell [] =
          .ret StatusCode.success
            ⟨{ shell.environment with
                working_directory :=
                  { shell.environment.working_directory with absolute := ab },
                previous_working_directory :=
                  some shell.environment.working_directory.absolute }⟩
            ⟨[], [], 1⟩)) := by
  refine ⟨fun h => by simp [go_back, h],
    fun prev h => ⟨fun h2 => ?_, fun ab h2 => ?_⟩⟩ <;>
    simp [go_back, h, Environment.set_path, h2]

/-- Witness for C8: with no recorded previous directory `go-back` fails with
code 2; with previous directory `/` recorded and a filesystem accepting it,
it returns to `/`, records `/tmp`, and resyncs once. -/
theorem go_back_spec_witness :
    go_back fs0 shell0 [] =
      .ret (StatusCode.new 2) shell0
        (Effects.errs ["No previous working directory available"]) ∧
    go_back fsOk shell1 [] =
      .ret StatusCode.success ⟨⟨⟨"/", none⟩, some "/tmp", "/home/u"⟩⟩ ⟨[], [], 1⟩ := by
  refine ⟨(go_back_spec fs0 shell0).1 rfl, ?_⟩
  exact ((go_back_spec fsOk shell1).2 "/" rfl).2 "/" rfl

/-- C9: `change-directory` with exactly one argument fails with code 2 and
an unchanged shell and no environment resynchronization when the path does
not validate; otherwise it sets the working directory to the validated path,
records the prior working directory, performs exactly one
environment-variable resynchronization, and succeeds — the resync happens
if and only if the path change succeeded. -/
theorem change_directory_spec (fs : Fs) (shell : Shell) (arg : String) :
    (fs.validDir arg = none →
      change_directory fs shell [arg] =
        .ret (StatusCode.new 2) shell
          (Effects.errs ["Invalid path: " ++ quoted arg])) ∧
    (∀ ab, fs.validDir arg = some ab →
      change_directory fs shell [arg] =
        .ret StatusCode.success
          ⟨{ shell.environment with
              working_directory :=
                { shell.environment.working_directory with absolute := ab },
              previous_working_directory :=
                some shell.environment.working_directory.absolute }⟩
          ⟨[], [], 1⟩) := by
  refine ⟨fun h => ?_, fun ab h => ?_⟩ <;>
    simp [change_directory, Environment.set_path, h]

/-- Witness for C9: an invalid path fails with code 2 and no state change; a
valid path `/tmp` updates the working directory, records `/`, and resyncs
once. -/
theorem change_directory_spec_witness :
    change_directory fs0 shell0 ["/nope"] =
      .ret (StatusCode.new 2) shell0
        (Effects.errs ["Invalid path: " ++ quoted "/nope"]) ∧
    change_directory fsOk shell0 ["/tmp"] =
      .ret StatusCode.success ⟨⟨⟨"/tmp", none⟩, some "/", "/home/u"⟩⟩ ⟨[], [], 1⟩ :=
  ⟨(change_directory_spec fs0 shell0 "/nope").1 rfl,
    (change_directory_spec fsOk shell0 "/tmp").2 "/tmp" rfl⟩

/-- C10: `create-file`, `create-directory`, `delete-file`, and `read-file`
always return with the shell state they were given (environment, previous
working directory, working-directory display unchanged); their status code
and printed output do not depend on the shell state; and with one argument
the path is passed to the filesystem verbatim — the oracle is queried at the
raw argument string, with no tilde expansion and no canonicalization. -/
theorem file_builtins_frame (fs : Fs) (args : List String) (p : String) :
    (∀ shell,
      (create_file fs shell args).shellOf = some shell ∧
      (create_directory fs shell args).shellOf = some shell ∧
      (delete_file fs shell args).shellOf = some shell ∧
      (read_file fs shell args).shellOf = some shell) ∧
    (∀ shell shell2,
      create_file fs shell args = (create_file fs shell2 args).withShell shell ∧
      create_directory fs shell args = (create_directory fs shell2 args).withShell shell ∧
      delete_file fs shell args = (delete_file fs shell2 args).withShell shell ∧
      read_file fs shell args = (read_file fs shell2 args).withShell shell) ∧
    (∀ shell,
      create_file fs shell [p] =
        .ret (if fs.createFile p then StatusCode.success else StatusCode.new 2)
          shell
          (if fs.createFile p then Effects.silent
            else Effects.errs ["Failed to create file: " ++ quoted p]) ∧
      create_directory fs shell [p] =
        .ret (if fs.createDir p then StatusCode.success else StatusCode.new 2)
          shell
          (if fs.createDir p then Effects.silent
            else Effects.errs ["Failed to create directory: " ++ quoted p]) ∧
      delete_file fs shell [p] =
        .ret (if fs.removeFile p then StatusCode.success else StatusCode.new 2)
          shell
          (if fs.removeFile p then Effects.silent
            else Effects.errs ["Failed to delete file: " ++ quoted p]) ∧
      read_file fs shell [p] =
        (match fs.openFile p with
          | some lines => .ret StatusCode.success shell (Effects.prints lines)
          | none =>
            .ret (StatusCode.new 2) shell
              (Effects.errs ["Failed to open file: " ++ quoted p]))) := by
  refine ⟨fun shell => ?_, fun shell shell2 => ?_, fun shell => ?_⟩
  · rcases args with _ | ⟨a, _ | ⟨b, bs⟩⟩
    · exact ⟨rfl, rfl, rfl, rfl⟩
    · refine ⟨?_, ?_, ?_, ?_⟩
      · cases h : fs.createFile a <;> simp [create_file, h, BRes.shellOf]
      · cases h : fs.createDir a <;> simp [create_directory, h, BRes.shellOf]
      · cases h : fs.removeFile a <;> simp [delete_file, h, BRes.shellOf]
      · cases h : fs.openFile a <;> simp [read_file, h, BRes.shellOf]
    · exact ⟨rfl, rfl, rfl, rfl⟩
  · rcases args with _ | ⟨a, _ | ⟨b, bs⟩⟩
    · exact ⟨rfl, rfl, rfl, rfl⟩
    · refine ⟨?_, ?_, ?_, ?_⟩
      · cases h : fs.createFile a <;> simp [create_file, h, BRes.withShell]
      · cases h : fs.createDir a <;> simp [create_directory, h, BRes.withShell]
      · cases h : fs.removeFile a <;> simp [delete_file, h, BRes.withShell]
      · cases h : fs.openFile a <;> simp [read_file, h, BRes.withShell]
    · exact ⟨rfl, rfl, rfl, rfl⟩
  · refine ⟨?_, ?_, ?_, ?_⟩
    · cases h : fs.createFile p <;> simp [create_file, h]
    · cases h : fs.createDir p <;> simp [create_directory, h]
    · cases h : fs.removeFile p <;> simp [delete_file, h]
    · cases h : fs.openFile p <;> simp [read_file, h]

/-- C6: in the default registry — test(t), exit(quit,q),
working-directory(pwd,wd), change-directory(cd),
list-directory(directory,list,ls,dir), go-back(back,b,prev,pd),
clear-terminal(clear,cls), create-file(create,touch,new,cf),
create-directory(mkdir,md), delete-file(delete,remove,rm,del,df),
read-file(read,cat,rf), truncate(trunc), untruncate(untrunc) — resolving
each true name yields the command carrying that true name, and resolving
every declared alias yields the very same command as resolving its true
name. -/
theorem default_registry_resolution :
    ((CommandManager.default.resolve "test").map Command.true_name = some "test") ∧
    CommandManager.default.resolve "t" = CommandManager.default.resolve "test" ∧
    ((CommandManager.default.resolve "exit").map Command.true_name = some "exit") ∧
    CommandManager.default.resolve "quit" = CommandManager.default.resolve "exit" ∧
    CommandManager.default.resolve "q" = CommandManager.default.resolve "exit" ∧
    ((CommandManager.default.resolve "working-directory").map Command.true_name = some "working-directory") ∧
    CommandManager.default.resolve "pwd" = CommandManager.default.resolve "working-directory" ∧
    CommandManager.default.resolve "wd" = CommandManager.default.resolve "working-directory" ∧
    ((CommandManager.default.resolve "change-directory").map Command.true_name = some "change-directory") ∧
    CommandManager.default.resolve "cd" = CommandManager.default.resolve "change-directory" ∧
    ((CommandManager.default.resolve "list-directory").map Command.true_name = some "list-directory") ∧
    CommandManager.default.resolve "directory" = CommandManager.default.resolve "list-directory" ∧
    CommandManager.default.resolve "list" = CommandManager.default.resolve "list-directory" ∧
    CommandManager.default.resolve "ls" = CommandManager.default.resolve "list-directory" ∧
    CommandManager.default.resolve "dir" = CommandManager.default.resolve "list-directory" ∧
    ((CommandManager.default.resolve "go-back").map Command.true_name = some "go-back") ∧
    CommandManager.default.resolve "back" = CommandManager.default.resolve "go-back" ∧
    CommandManager.default.resolve "b" = CommandManager.default.resolve "go-back" ∧
    CommandManager.default.resolve "prev" = CommandManager.default.resolve "go-back" ∧
    CommandManager.default.resolve "pd" = CommandManager.default.resolve "go-back" ∧
    ((CommandManager.default.resolve "clear-terminal").map Command.true_name = some "clear-terminal") ∧
    CommandManager.default.resolve "clear" = CommandManager.default.resolve "clear-terminal" ∧
    CommandManager.default.resolve "cls" = CommandManager.default.resolve "clear-terminal" ∧
    ((CommandManager.default.resolve "create-file").map Command.true_name = some "create-file") ∧
    CommandManager.default.resolve "create" = CommandManager.default.resolve "create-file" ∧
    CommandManager.default.resolve "touch" = CommandManager.default.resolve "create-file" ∧
    CommandManager.default.resolve "new" = CommandManager.default.resolve "create-file" ∧
    CommandManager.default.resolve "cf" = CommandManager.default.resolve "create-file" ∧
    ((CommandManager.default.resolve "create-directory").map Command.true_name = some "create-directory") ∧
    CommandManager.default.resolve "mkdir" = CommandManager.default.resolve "create-directory" ∧
    CommandManager.default.resolve "md" = CommandManager.default.resolve "create-directory" ∧
    ((CommandManager.default.resolve "delete-file").map Command.true_name = some "delete-file") ∧
    CommandManager.default.resolve "delete" = CommandManager.default.resolve "delete-file" ∧
    CommandManager.default.resolve "remove" = CommandManager.default.resolve "delete-file" ∧
    CommandManager.default.resolve "rm" = CommandManager.default.resolve "delete-file" ∧
    CommandManager.default.resolve "del" = CommandManager.default.resolve "delete-file" ∧
    CommandManager.default.resolve "df" = CommandManager.default.resolve "delete-file" ∧
    ((CommandManager.default.resolve "read-file").map Command.true_name = some "read-file") ∧
    CommandManager.default.resolve "read" = CommandManager.default.resolve "read-file" ∧
    CommandManager.default.resolve "cat" = CommandManager.default.resolve "read-file" ∧
    CommandManager.default.resolve "rf" = CommandManager.default.resolve "read-file" ∧
    ((CommandManager.default.resolve "truncate").map Command.true_name = some "truncate") ∧
    CommandManager.default.resolve "trunc" = CommandManager.default.resolve "truncate" ∧
    ((CommandManager.default.resolve "untruncate").map Command.true_name = some "untruncate") ∧
    CommandManager.default.resolve "untrunc" = CommandManager.default.resolve "untruncate" :=
  ⟨rfl, rfl, rfl, rfl, rfl, rfl, rfl, rfl, rfl, rfl, rfl, rfl, rfl, rfl, rfl, rfl, rfl, rfl, rfl, rfl, rfl, rfl, rfl, rfl, rfl, rfl, rfl, rfl, rfl, rfl, rfl, rfl, rfl, rfl, rfl, rfl, rfl, rfl, rfl, rfl, rfl, rfl, rfl, rfl, rfl⟩

end Rush
